import Mathlib

/-!
Verification of the typedload data loader (`typedload/dataloader.py`).

The development shallowly embeds the loader: Python dynamic values become the
`Value` inductive, target-type descriptors become the `Ty` inductive, and the
recursive `Loader.load` engine is translated function-by-function from
`dataloader.py`, with fuel making the recursion manifestly total (the Python
recursion is bounded by the nesting of the target type; fuel exhaustion is a
distinct `foreign` error that never occurs at sufficient fuel).

The repository modules `typedload/exceptions.py`, `typedload/typechecks.py`
and `typedload/helpers.py` are imported by `dataloader.py` but are not part of
the source tree given here; the exception record (`TLErr`), the shape
predicates (`is_union`, ...) and `tname` are modelled from the spec where so
noted.  Everything else is translated directly from `dataloader.py`.
-/

/-- A Python dynamic value, as produced by parsing JSON-like data, plus the
record instances the loader constructs.  Floats are outside the modelled
universe (no claim mentions them). -/
inductive Value where
  | vNone : Value
  | vBool (b : Bool) : Value
  | vInt (n : Int) : Value
  | vStr (s : String) : Value
  | vList (xs : List Value) : Value
  | vDict (kvs : List (String × Value)) : Value
  | vRecord (name : String) (fields : List (String × Value)) : Value

mutual

/-- Structural equality test on dynamic values. -/
def Value.beq : Value → Value → Bool
  | .vNone, .vNone => true
  | .vBool a, .vBool b => a == b
  | .vInt a, .vInt b => a == b
  | .vStr a, .vStr b => a == b
  | .vList a, .vList b => Value.beqList a b
  | .vDict a, .vDict b => Value.beqPairs a b
  | .vRecord n a, .vRecord m b => n == m && Value.beqPairs a b
  | _, _ => false
termination_by structural x => x

def Value.beqList : List Value → List Value → Bool
  | [], [] => true
  | x :: xs, y :: ys => Value.beq x y && Value.beqList xs ys
  | _, _ => false
termination_by structural x => x

def Value.beqPairs : List (String × Value) → List (String × Value) → Bool
  | [], [] => true
  | (k, x) :: xs, (k2, y) :: ys => k == k2 && Value.beq x y && Value.beqPairs xs ys
  | _, _ => false
termination_by structural x => x

end

instance : BEq Value := ⟨Value.beq⟩

/-- Python `==` on dynamic values.  Python identifies `True` with `1` and
`False` with `0` (`True == 1` is `True`); this is what the `in` test of
`_literalload` uses.  Containers are compared structurally here: Python only
admits scalars as `Literal` parameters, so the container cases are never
reached through `_literalload`. -/
def pyEqB : Value → Value → Bool
  | .vBool a, .vInt n => (if a then (1 : Int) else 0) == n
  | .vInt n, .vBool a => n == (if a then (1 : Int) else 0)
  | a, b => Value.beq a b

/-- Per-field information of a `dataclasses` field, as read by
`_dataclassload`: `default`, `default_factory` (modelled by the value the
factory produces), `init`, and the `metadata` mapping. -/
structure DInfo where
  default : Option Value := none
  factory : Option Value := none
  init : Bool := true
  metadata : List (String × String) := []

/-- Per-attribute information of an `attrs` class, as read by `_attrload`:
`default`, `init` and the `metadata` mapping. -/
structure AInfo where
  default : Option Value := none
  init : Bool := true
  metadata : List (String × String) := []

/-- Equality test for `Option Value`. -/
def optValBeq : Option Value → Option Value → Bool
  | none, none => true
  | some a, some b => Value.beq a b
  | _, _ => false

def DInfo.beq (a b : DInfo) : Bool :=
  optValBeq a.default b.default && optValBeq a.factory b.factory
    && a.init == b.init && a.metadata == b.metadata

def AInfo.beq (a b : AInfo) : Bool :=
  optValBeq a.default b.default && a.init == b.init && a.metadata == b.metadata

/-- A target-type descriptor: the part of the Python type universe exercised
by the claims.  `tOpaque` stands for any Python type matched by none of the
shape predicates (e.g. an arbitrary class), so that the no-handler path of
`Loader.load` is inhabited. -/
inductive Ty where
  | tNone : Ty
  | tBool : Ty
  | tInt : Ty
  | tStr : Ty
  | tUnion (args : List Ty) : Ty
  | tList (elem : Ty) : Ty
  | tLiteral (lits : List Value) : Ty
  | tAny : Ty
  | tNamedTuple (name : String) (fields : List (String × Ty × Option Value)) : Ty
  | tDataclass (name : String) (fields : List (String × Ty × DInfo)) : Ty
  | tAttrs (name : String) (fields : List (String × Ty × AInfo)) : Ty
  | tTypedDict (name : String) (fields : List (String × Ty))
      (required : List String) : Ty
  | tOpaque (name : String) : Ty

mutual

/-- Structural equality test on type descriptors (Python `==` on type
objects). -/
def Ty.beq : Ty → Ty → Bool
  | .tNone, .tNone => true
  | .tBool, .tBool => true
  | .tInt, .tInt => true
  | .tStr, .tStr => true
  | .tUnion a, .tUnion b => Ty.beqList a b
  | .tList a, .tList b => Ty.beq a b
  | .tLiteral a, .tLiteral b => Value.beqList a b
  | .tAny, .tAny => true
  | .tNamedTuple n a, .tNamedTuple m b => n == m && Ty.beqNT a b
  | .tDataclass n a, .tDataclass m b => n == m && Ty.beqDC a b
  | .tAttrs n a, .tAttrs m b => n == m && Ty.beqAT a b
  | .tTypedDict n a r, .tTypedDict m b r2 => n == m && Ty.beqTD a b && r == r2
  | .tOpaque n, .tOpaque m => n == m
  | _, _ => false
termination_by structural x => x

def Ty.beqList : List Ty → List Ty → Bool
  | [], [] => true
  | x :: xs, y :: ys => Ty.beq x y && Ty.beqList xs ys
  | _, _ => false
termination_by structural x => x

def Ty.beqNT : List (String × Ty × Option Value) → List (String × Ty × Option Value) → Bool
  | [], [] => true
  | (k, t, d) :: xs, (k2, t2, d2) :: ys =>
      k == k2 && Ty.beq t t2 && optValBeq d d2 && Ty.beqNT xs ys
  | _, _ => false
termination_by structural x => x

def Ty.beqDC : List (String × Ty × DInfo) → List (String × Ty × DInfo) → Bool
  | [], [] => true
  | (k, t, d) :: xs, (k2, t2, d2) :: ys =>
      k == k2 && Ty.beq t t2 && DInfo.beq d d2 && Ty.beqDC xs ys
  | _, _ => false
termination_by structural x => x

def Ty.beqAT : List (String × Ty × AInfo) → List (String × Ty × AInfo) → Bool
  | [], [] => true
  | (k, t, d) :: xs, (k2, t2, d2) :: ys =>
      k == k2 && Ty.beq t t2 && AInfo.beq d d2 && Ty.beqAT xs ys
  | _, _ => false
termination_by structural x => x

def Ty.beqTD : List (String × Ty) → List (String × Ty) → Bool
  | [], [] => true
  | (k, t) :: xs, (k2, t2) :: ys => k == k2 && Ty.beq t t2 && Ty.beqTD xs ys
  | _, _ => false
termination_by structural x => x

end

instance : BEq Ty := ⟨Ty.beq⟩

/-- Positional annotation of a recursive load (the `Annotation` class of
`typedload/exceptions.py`, modelled from the spec: sequence index, mapping
key, mapping value, record field, union branch, forward-reference name). -/
inductive Ann where
  | index (i : Nat) : Ann
  | key (v : Value) : Ann
  | value (v : Value) : Ann
  | field (name : String) : Ann
  | union (t : Ty) : Ann
  | forwardref (name : String) : Ann

/-- One trace entry: the `TraceItem(value, type_, annotation)` of
`typedload/exceptions.py` (modelled from the spec). -/
structure TraceItem where
  value : Value
  type_ : Ty
  ann : Option Ann

/-- The recognized failure kinds: `TypedloadTypeError`, `TypedloadValueError`,
`TypedloadAttributeError` (subclasses of `TypedloadException`).  `foreign`
marks anything that is not a recognized typedload failure (a raw predicate
exception, an unmodelled handler, fuel exhaustion). -/
inductive ErrKind where
  | typeError
  | valueError
  | attributeError
  | foreign
deriving DecidableEq

/-- Modelled from the spec: a `TypedloadException` carries a message, a trace
(prepended to as the failure propagates) and the list of nested failures
collected by the sum-type resolver (`exceptions=` keyword). -/
inductive TLErr where
  | mk (kind : ErrKind) (msg : String) (trace : List TraceItem)
      (excs : List TLErr) : TLErr

def TLErr.kind : TLErr → ErrKind
  | .mk k _ _ _ => k

def TLErr.msg : TLErr → String
  | .mk _ m _ _ => m

def TLErr.trace : TLErr → List TraceItem
  | .mk _ _ tr _ => tr

def TLErr.excs : TLErr → List TLErr
  | .mk _ _ _ ex => ex

/-- `e.trace.insert(0, TraceItem(value, type_, annotation))` of
`Loader.load`. -/
def prependTrace (v : Value) (t : Ty) (a : Option Ann) : TLErr → TLErr
  | .mk k m tr ex => .mk k m (⟨v, t, a⟩ :: tr) ex

/-- The loader configuration (`Loader.__init__`).  `strconstructed`, `frefs`
and the handler-index cache are omitted: the modelled universe contains no
string-constructed or forward-referenced types, and the cache is a pure
memoization of `Loader.index` with no observable effect. -/
structure Loader where
  basictypes : List Ty := [.tInt, .tBool, .tStr, .tNone]
  basiccast : Bool := true
  failonextra : Bool := false
  raiseconditionerrors : Bool := true
  dictequivalence : Bool := true
  mangle_key : String := "name"
  uniondebugconflict : Bool := false

def defaultLoader : Loader := {}

/-- Modelled from the spec: `helpers.tname` (absent from src/) renders a
human-readable type name for messages. -/
def tname : Ty → String
  | .tNone => "NoneType"
  | .tBool => "bool"
  | .tInt => "int"
  | .tStr => "str"
  | .tUnion _ => "Union"
  | .tList _ => "List"
  | .tLiteral _ => "Literal"
  | .tAny => "Any"
  | .tNamedTuple n _ => n
  | .tDataclass n _ => n
  | .tAttrs n _ => n
  | .tTypedDict n _ _ => n
  | .tOpaque n => n

/-- The name Python gives to `type(value)` of a dynamic value. -/
def tnameOfValue : Value → String
  | .vNone => "NoneType"
  | .vBool _ => "bool"
  | .vInt _ => "int"
  | .vStr _ => "str"
  | .vList _ => "list"
  | .vDict _ => "dict"
  | .vRecord n _ => n

/-- `type(value)` as a `Ty`, when that runtime type is itself a descriptor of
our universe (scalars only: the runtime type of a list is `list`, not
`List[X]`, and is never a member of `basictypes` or of a union's argument
list). -/
def typeOfV : Value → Option Ty
  | .vNone => some .tNone
  | .vBool _ => some .tBool
  | .vInt _ => some .tInt
  | .vStr _ => some .tStr
  | _ => none

/-- Python `type(value) == type_`. -/
def typeIs (v : Value) (t : Ty) : Bool :=
  match typeOfV v with
  | some t2 => t2 == t
  | none => false

/-- Python `type(value) in ts` for a list of type descriptors. -/
def typeMem (v : Value) (ts : List Ty) : Bool :=
  match typeOfV v with
  | some t => ts.contains t
  | none => false

/-! ### Shape predicates

`typedload/typechecks.py` is not in src/.  Modelled from the spec: each
predicate recognizes its shape on the modelled universe; shapes that the
universe does not contain (enums, tuples, dicts, sets, frozensets, forward
references, datetimes, string-constructed types, newtypes) have constantly
false predicates here.  The two `lambda` conditions of the handler table are
named `is_basictype` (membership in `Loader.basictypes`, inlined in
`handlers`) and `is_datetime`/`is_strconstructed`. -/

def is_nonetype : Ty → Bool
  | .tNone => true
  | _ => false

def is_union : Ty → Bool
  | .tUnion _ => true
  | _ => false

def is_list : Ty → Bool
  | .tList _ => true
  | _ => false

def is_namedtuple : Ty → Bool
  | .tNamedTuple _ _ => true
  | _ => false

def is_dataclass : Ty → Bool
  | .tDataclass _ _ => true
  | _ => false

def is_literal : Ty → Bool
  | .tLiteral _ => true
  | _ => false

def is_typeddict : Ty → Bool
  | .tTypedDict _ _ _ => true
  | _ => false

def is_attrs : Ty → Bool
  | .tAttrs _ _ => true
  | _ => false

def is_any : Ty → Bool
  | .tAny => true
  | _ => false

def is_enum (_ : Ty) : Bool := false

def is_tuple (_ : Ty) : Bool := false

def is_dict (_ : Ty) : Bool := false

def is_set (_ : Ty) : Bool := false

def is_frozenset (_ : Ty) : Bool := false

def is_forwardref (_ : Ty) : Bool := false

def is_datetime (_ : Ty) : Bool := false

def is_strconstructed (_ : Ty) : Bool := false

def is_newtype (_ : Ty) : Bool := false

/-! ### Python value rendering and scalar casting -/

mutual

/-- Python `repr` of a dynamic value (quoting modelled without escapes). -/
def pyRepr : Value → String
  | .vNone => "None"
  | .vBool b => if b then "True" else "False"
  | .vInt n => toString n
  | .vStr s => "\x27" ++ s ++ "\x27"
  | .vList xs => "[" ++ pyReprList xs ++ "]"
  | .vDict kvs => "\x7b" ++ pyReprPairs kvs ++ "\x7d"
  | .vRecord n fs => n ++ "(" ++ pyReprFields fs ++ ")"
termination_by structural x => x

def pyReprList : List Value → String
  | [] => ""
  | [x] => pyRepr x
  | x :: xs => pyRepr x ++ ", " ++ pyReprList xs
termination_by structural x => x

def pyReprPairs : List (String × Value) → String
  | [] => ""
  | [(k, v)] => "\x27" ++ k ++ "\x27: " ++ pyRepr v
  | (k, v) :: xs => "\x27" ++ k ++ "\x27: " ++ pyRepr v ++ ", " ++ pyReprPairs xs
termination_by structural x => x

def pyReprFields : List (String × Value) → String
  | [] => ""
  | [(k, v)] => k ++ "=" ++ pyRepr v
  | (k, v) :: xs => k ++ "=" ++ pyRepr v ++ ", " ++ pyReprFields xs
termination_by structural x => x

end

/-- Python `str` of a dynamic value. -/
def pyStr : Value → String
  | .vStr s => s
  | v => pyRepr v

/-- Python truthiness, for the `bool(value)` cast. -/
def pyTruth : Value → Bool
  | .vNone => false
  | .vBool b => b
  | .vInt n => n != 0
  | .vStr s => s != ""
  | .vList xs => !xs.isEmpty
  | .vDict kvs => !kvs.isEmpty
  | .vRecord _ fs => !fs.isEmpty

/-- Failure of a builtin scalar constructor, by Python exception class
(`int(...)` raises `ValueError` on malformed strings and `TypeError` on
non-castable runtime types; `bool`/`str` never raise). -/
inductive CastErr where
  | castValueError (m : String)
  | castTypeError (m : String)

/-- The `type_(value)` cast of `_basicload` for the basic scalar targets.
`int` of a string is modelled by `String.toInt?` (surrounding whitespace,
`+` signs and `_` separators, which CPython would additionally accept, are
outside the model). -/
def pyCast : Ty → Value → Except CastErr Value
  | .tInt, .vInt n => .ok (.vInt n)
  | .tInt, .vBool b => .ok (.vInt (if b then 1 else 0))
  | .tInt, .vStr s =>
      match s.toInt? with
      | some n => .ok (.vInt n)
      | none => .error (.castValueError
          ("invalid literal for int() with base 10: \x27" ++ s ++ "\x27"))
  | .tInt, v => .error (.castTypeError
      ("int() argument must be a string, a bytes-like object or a real number, not \x27"
        ++ tnameOfValue v ++ "\x27"))
  | .tBool, v => .ok (.vBool (pyTruth v))
  | .tStr, v => .ok (.vStr (pyStr v))
  | .tNone, _ => .error (.castTypeError "NoneType takes no arguments")
  | t, _ => .error (.castTypeError (tname t ++ " is not callable in the modelled universe"))

/-! ### The engine data and helpers translated from dataloader.py -/

/-- The type of the recursive entry point a routine uses to load
sub-values (`l.load` in the Python routines). -/
def LoadFn : Type := Value → Ty → Option Ann → Except TLErr Value

/-- Error used for handler branches that cannot be reached from the modelled
universe (their predicates are constantly false here), and for fuel
exhaustion; its kind `foreign` is not a recognized typedload failure kind. -/
def unmodelledErr : TLErr := .mk .foreign "outside the modelled universe" [] []

/-- `_noneload`: loads a value that can only be `None`. -/
def _noneload (_l : Loader) (value : Value) (_type : Ty) : Except TLErr Value :=
  match value with
  | .vNone => .ok .vNone
  | _ => .error (.mk .valueError "Not None" [] [])

/-- `_basicload`: pass through when the runtime type already matches,
otherwise cast when `basiccast` is enabled, remapping the cast failure;
reject otherwise. -/
def _basicload (l : Loader) (value : Value) (type_ : Ty) : Except TLErr Value :=
  if !(typeIs value type_) then
    if l.basiccast then
      match pyCast type_ value with
      | .ok r => .ok r
      | .error (.castValueError m) => .error (.mk .valueError m [] [])
      | .error (.castTypeError m) => .error (.mk .typeError m [] [])
    else
      .error (.mk .valueError
        ("Got " ++ pyRepr value ++ " of type " ++ tnameOfValue value
          ++ ", expected " ++ tname type_) [] [])
  else .ok value

/-- `_literalload`: checks `value in literalvalues(type_)` (Python `in`,
hence Python `==`, i.e. `pyEqB`) and returns the value itself. -/
def _literalload (_l : Loader) (value : Value) (type_ : Ty) : Except TLErr Value :=
  match type_ with
  | .tLiteral lits =>
      if lits.any (fun x => pyEqB value x) then .ok value
      else .error (.mk .valueError ("Not one of the allowed values in " ++ tname type_) [] [])
  | _ => .error unmodelledErr

/-- `_anyload`: the identity. -/
def _anyload (_l : Loader) (value : Value) (_type : Ty) : Except TLErr Value :=
  .ok value

/-! ### Name mangling (`_mangle_names`) -/

/-- Failure of `_mangle_names`, by Python exception class. -/
inductive MErr where
  | mValueError (m : String)
  | mAttributeError (m : String)

/-- `r[k] = v` on the result dictionary being built: Python dict assignment
updates in place (keeping the original position) or appends. -/
def dictSet (r : List (String × Value)) (k : String) (v : Value) :
    List (String × Value) :=
  if r.any (fun p => p.1 == k) then
    r.map (fun p => if p.1 == k then (k, v) else p)
  else r ++ [(k, v)]

/-- The `for k, v in value.items()` loop of `_mangle_names`: `skip` is the
set of python-side names, `r` the dictionary being built. -/
def mangleLoop (namesmap : List (String × String)) (skip : List String)
    (failonextra : Bool) :
    List (String × Value) → List (String × Value) → Except MErr (List (String × Value))
  | [], r => .ok r
  | (k, v) :: rest, r =>
      if skip.contains k && (namesmap.lookup k).isNone then
        if failonextra then .error (.mValueError ("Extra field: " ++ k))
        else mangleLoop namesmap skip failonextra rest r
      else
        let k2 := match namesmap.lookup k with
          | some k2 => k2
          | none => k
        mangleLoop namesmap skip failonextra rest (dictSet r k2 v)

/-- `_mangle_names(namesmap, value, failonextra)`: with an empty map the
value is returned as-is (the very same object); otherwise a fresh dictionary
is built, so the caller-owned input is never written to. -/
def _mangle_names (namesmap : List (String × String)) (value : Value)
    (failonextra : Bool) : Except MErr Value :=
  if namesmap.isEmpty then .ok value
  else
    match value with
    | .vDict kvs =>
        match mangleLoop namesmap (namesmap.map Prod.snd) failonextra kvs [] with
        | .ok r => .ok (.vDict r)
        | .error e => .error e
    | _ => .error (.mAttributeError
        ("\x27" ++ tnameOfValue value ++ "\x27 object has no attribute \x27items\x27"))

/-! ### Record schemas

The per-kind extraction of `(fields, necessary_fields, type_hints)` done at
the top of `_namedtupleload`, `_dataclassload`, `_typeddictload` and
`_attrload`.  Python builds `fields` and `necessary_fields` as sets; they are
modelled as lists in field-declaration order. -/

def ntFieldNames (fs : List (String × Ty × Option Value)) : List String :=
  fs.map (fun f => f.1)

def ntHints (fs : List (String × Ty × Option Value)) : List (String × Ty) :=
  fs.map (fun f => (f.1, f.2.1))

/-- `fields.difference(optional_fields)` of `_namedtupleload`: the fields
without an entry in `_field_defaults`. -/
def ntNecessary (fs : List (String × Ty × Option Value)) : List String :=
  (fs.filter (fun f => f.2.2.isNone)).map (fun f => f.1)

def dcFieldNames (fs : List (String × Ty × DInfo)) : List String :=
  fs.map (fun f => f.1)

def dcHints (fs : List (String × Ty × DInfo)) : List (String × Ty) :=
  fs.map (fun f => (f.1, f.2.1))

/-- `_dataclassload`: necessary are the fields with `init == True`, no
default and no default factory. -/
def dcNecessary (fs : List (String × Ty × DInfo)) : List String :=
  (fs.filter (fun f => f.2.2.init && f.2.2.default.isNone && f.2.2.factory.isNone)).map
    (fun f => f.1)

/-- The `transforms` dictionary of `_dataclassload`: for each field with
non-empty metadata whose entry under the mangle key is a non-empty (truthy)
string, map that data-side name to the python-side name. -/
def dcTransforms (mangle_key : String) (fs : List (String × Ty × DInfo)) :
    List (String × String) :=
  fs.foldl
    (fun acc f =>
      if f.2.2.metadata.isEmpty then acc
      else
        match f.2.2.metadata.lookup mangle_key with
        | some nm => if nm == "" then acc else acc ++ [(nm, f.1)]
        | none => acc)
    []

def atFieldNames (fs : List (String × Ty × AInfo)) : List String :=
  fs.map (fun f => f.1)

def atHints (fs : List (String × Ty × AInfo)) : List (String × Ty) :=
  fs.map (fun f => (f.1, f.2.1))

/-- `_attrload`: necessary are the attributes with no default that take part
in `__init__`. -/
def atNecessary (fs : List (String × Ty × AInfo)) : List String :=
  (fs.filter (fun f => f.2.2.default.isNone && f.2.2.init)).map (fun f => f.1)

/-- The `namesmap` of `_attrload`: every attribute whose metadata has an
entry under the mangle key contributes a data-name → attribute-name pair. -/
def atNamesmap (mangle_key : String) (fs : List (String × Ty × AInfo)) :
    List (String × String) :=
  fs.foldl
    (fun acc f =>
      match f.2.2.metadata.lookup mangle_key with
      | some nm => acc ++ [(nm, f.1)]
      | none => acc)
    []

def tdFieldNames (fs : List (String × Ty)) : List String :=
  fs.map (fun f => f.1)

/-! ### Record construction (`type_(**params)`) -/

/-- Failure of a record constructor, by Python exception class: a `TypeError`
for an argument mismatch, a `ValueError` for a value rejected by the
constructor itself. -/
inductive ConErr where
  | conTypeError (m : String)
  | conValueError (m : String)

/-- Builds the field list of a constructed record: every declared field takes
its value from `params` or falls back to its defaults; a missing required
argument is a `TypeError`.  Fields with `init == False` may not be passed and
are filled (if possible) from their defaults. -/
def buildFields (tn : String) (params : List (String × Value)) :
    List (String × Bool × Option Value) → Except ConErr (List (String × Value))
  | [] => .ok []
  | (name, init, dflt) :: rest =>
      if init then
        match params.lookup name with
        | some v => (buildFields tn params rest).map (fun fs => (name, v) :: fs)
        | none =>
            match dflt with
            | some d => (buildFields tn params rest).map (fun fs => (name, d) :: fs)
            | none => .error (.conTypeError
                (tn ++ ".__init__() missing required argument: \x27" ++ name ++ "\x27"))
      else
        match dflt with
        | some d => (buildFields tn params rest).map (fun fs => (name, d) :: fs)
        | none => buildFields tn params rest

/-- The constructor signature of a record kind: for each declared field its
name, whether it is an `__init__` parameter and the default value used when
it is not passed. -/
def ctorSig : Ty → Option (String × List (String × Bool × Option Value))
  | .tNamedTuple n fs => some (n, fs.map (fun f => (f.1, true, f.2.2)))
  | .tDataclass n fs =>
      some (n, fs.map (fun f =>
        (f.1, f.2.2.init,
          match f.2.2.default with
          | some d => some d
          | none => f.2.2.factory)))
  | .tAttrs n fs => some (n, fs.map (fun f => (f.1, f.2.2.init, f.2.2.default)))
  | _ => none

/-- Python `type_(**params)` for the record-like kinds.  A keyword that is
not an `__init__` parameter raises `TypeError`; a `TypedDict` constructor
just returns the dictionary of the passed keywords (no runtime checking). -/
def pyConstruct (type_ : Ty) (params : List (String × Value)) : Except ConErr Value :=
  match type_ with
  | .tTypedDict _ _ _ => .ok (.vDict params)
  | t =>
      match ctorSig t with
      | none => .error (.conTypeError (tname t ++ " is not a modelled constructor"))
      | some (n, sig) =>
          let initNames := (sig.filter (fun f => f.2.1)).map (fun f => f.1)
          if params.any (fun p => !(initNames.contains p.1)) then
            .error (.conTypeError
              (n ++ ".__init__() got an unexpected keyword argument"))
          else
            match buildFields n params sig with
            | .ok fs => .ok (.vRecord n fs)
            | .error e => .error e

/-! ### The shared record loader (`_objloader`) and the record routines -/

/-- The `for k, v in value.items()` loop of `_objloader`: keys that are not
recognized fields are dropped silently unless `failonextra`, in which case a
value error listing all unrecognized keys is raised; recognized keys are
decoded against their field type, annotated with the field name. -/
def objFields (loadFn : LoadFn) (fields : List String)
    (type_hints : List (String × Ty)) (failonextra : Bool)
    (vfields : List String) (tn : String) :
    List (String × Value) → Except TLErr (List (String × Value))
  | [] => .ok []
  | (k, v) :: rest =>
      if fields.contains k then
        match loadFn v ((type_hints.lookup k).getD (.tOpaque "KeyError")) (some (.field k)) with
        | .error e => .error e
        | .ok r =>
            match objFields loadFn fields type_hints failonextra vfields tn rest with
            | .ok ps => .ok ((k, r) :: ps)
            | .error e => .error e
      else if failonextra then
        .error (.mk .valueError
          ("Dictionary has unrecognized fields: "
            ++ String.intercalate ", " (vfields.filter (fun q => !(fields.contains q)))
            ++ " and cannot be loaded into " ++ tn) [] [])
      else objFields loadFn fields type_hints failonextra vfields tn rest

/-- The message of the missing-required-fields failure of `_objloader`
(Python renders `necessary_fields.difference(vfields)` as a set; the names
appear here in declaration order). -/
def missingFieldsMsg (missing : List String) (tn : String) : String :=
  "Value does not contain fields: " ++ String.intercalate ", " missing
    ++ " which are necessary for type " ++ tn

/-- `_objloader`: shared, shape-agnostic record decoding.  The input must
give mapping access (`value.keys()`; the `_dictequivalence` projection is the
identity on this universe, so any non-dict raises the attribute failure),
required fields must all be present, recognized fields are decoded
recursively, and the record is constructed, construction failures being
remapped to `TypedloadTypeError`/`TypedloadValueError`. -/
def _objloader (l : Loader) (loadFn : LoadFn) (fields : List String)
    (necessary_fields : List String) (type_hints : List (String × Ty))
    (value : Value) (type_ : Ty) : Except TLErr Value :=
  match value with
  | .vDict kvs =>
      let vfields := kvs.map Prod.fst
      if !(necessary_fields.all (fun k => vfields.contains k)) then
        .error (.mk .valueError
          (missingFieldsMsg (necessary_fields.filter (fun k => !(vfields.contains k)))
            (tname type_)) [] [])
      else
        match objFields loadFn fields type_hints l.failonextra vfields (tname type_) kvs with
        | .error e => .error e
        | .ok params =>
            match pyConstruct type_ params with
            | .ok r => .ok r
            | .error (.conTypeError m) => .error (.mk .typeError m [] [])
            | .error (.conValueError m) => .error (.mk .valueError m [] [])
  | _ => .error (.mk .attributeError
      ("\x27" ++ tnameOfValue value ++ "\x27 object has no attribute \x27keys\x27") [] [])

/-- `_namedtupleload`. -/
def _namedtupleload (l : Loader) (loadFn : LoadFn) (value : Value) (type_ : Ty) :
    Except TLErr Value :=
  match type_ with
  | .tNamedTuple _ fs =>
      _objloader l loadFn (ntFieldNames fs) (ntNecessary fs) (ntHints fs) value type_
  | _ => .error unmodelledErr

/-- `_dataclassload`: applies the metadata name mangling, then the shared
record loader. -/
def _dataclassload (l : Loader) (loadFn : LoadFn) (value : Value) (type_ : Ty) :
    Except TLErr Value :=
  match type_ with
  | .tDataclass _ fs =>
      match _mangle_names (dcTransforms l.mangle_key fs) value l.failonextra with
      | .error (.mValueError m) => .error (.mk .valueError m [] [])
      | .error (.mAttributeError m) => .error (.mk .attributeError m [] [])
      | .ok v2 =>
          _objloader l loadFn (dcFieldNames fs) (dcNecessary fs) (dcHints fs) v2 type_
  | _ => .error unmodelledErr

/-- `_typeddictload`: the required keys are the type's `__required_keys__`. -/
def _typeddictload (l : Loader) (loadFn : LoadFn) (value : Value) (type_ : Ty) :
    Except TLErr Value :=
  match type_ with
  | .tTypedDict _ fs req => _objloader l loadFn (tdFieldNames fs) req fs value type_
  | _ => .error unmodelledErr

/-- `_attrload`: applies the metadata name mangling, then the shared record
loader. -/
def _attrload (l : Loader) (loadFn : LoadFn) (value : Value) (type_ : Ty) :
    Except TLErr Value :=
  match type_ with
  | .tAttrs _ fs =>
      match _mangle_names (atNamesmap l.mangle_key fs) value l.failonextra with
      | .error (.mValueError m) => .error (.mk .valueError m [] [])
      | .error (.mAttributeError m) => .error (.mk .attributeError m [] [])
      | .ok v2 =>
          _objloader l loadFn (atFieldNames fs) (atNecessary fs) (atHints fs) v2 type_
  | _ => .error unmodelledErr

/-! ### Sequence loading (`_listload`) -/

/-- Python iteration (`enumerate(value)`): lists yield their elements,
strings their characters, namedtuples their field values, dicts their keys;
scalars raise `TypeError`. -/
def pyIter : Value → Except String (List Value)
  | .vList xs => .ok xs
  | .vStr s => .ok (s.toList.map (fun c => Value.vStr (String.mk [c])))
  | .vRecord _ fs => .ok (fs.map Prod.snd)
  | .vDict kvs => .ok (kvs.map (fun p => Value.vStr p.1))
  | v => .error ("\x27" ++ tnameOfValue v ++ "\x27 object is not iterable")

/-- The element loop of `_listload`: each element is decoded with its index
annotation; a typedload failure of an element propagates unchanged. -/
def listElems (loadFn : LoadFn) (t : Ty) : List Value → Nat → Except TLErr (List Value)
  | [], _ => .ok []
  | v :: rest, i =>
      match loadFn v t (some (.index i)) with
      | .error e => .error e
      | .ok r =>
          match listElems loadFn t rest (i + 1) with
          | .ok rs => .ok (r :: rs)
          | .error e => .error e

/-- `_listload`: dictionaries are rejected outright; a non-iterable value
raises the wrapped `TypeError`. -/
def _listload (_l : Loader) (loadFn : LoadFn) (value : Value) (type_ : Ty) :
    Except TLErr Value :=
  match type_ with
  | .tList t =>
      match value with
      | .vDict _ => .error (.mk .typeError "Unable to load dictionary as a list" [] [])
      | v =>
          match pyIter v with
          | .error m => .error (.mk .typeError m [] [])
          | .ok elems =>
              match listElems loadFn t elems 0 with
              | .ok rs => .ok (.vList rs)
              | .error e => .error e
  | _ => .error unmodelledErr

/-! ### Union loading (`_unionload`) -/

/-- Python's `list.sort` is stable; with the boolean key
`lambda i: i in self.basictypes` it is modelled by a stable insertion sort
on the key (`False` before `True`, ties keeping their order). -/
def boolLe (a b : Bool) : Bool := !a || b

def insertByKey (key : Ty → Bool) (x : Ty) : List Ty → List Ty
  | [] => [x]
  | y :: ys => if boolLe (key x) (key y) then x :: y :: ys else y :: insertByKey key x ys

def insSortByKey (key : Ty → Bool) : List Ty → List Ty
  | [] => []
  | x :: xs => insertByKey key x (insSortByKey key xs)

/-- `sorted_args` of `_unionload`: sort ascending by membership in
`basictypes`, so basic-scalar alternatives are tried after the others. -/
def sortByBasic (basictypes : List Ty) (args : List Ty) : List Ty :=
  insSortByKey (fun t => basictypes.contains t) args

def unionFailMsg (vn tn : String) : String :=
  "Value of " ++ vn ++ " could not be loaded into " ++ tn

def unionConflictMsg (vn tn : String) (cnt : Nat) : String :=
  "Value of " ++ vn ++ " could be loaded into " ++ tn ++ " " ++ toString cnt ++ " times"

/-- The decision after the loop of `_unionload`: exactly one success returns
it, zero successes raise the value error carrying every collected
per-alternative failure, several successes raise the conflict type error
reporting the count. -/
def unionDecide (vn tn : String) (excs : List TLErr) (cnt : Nat) (r : Option Value) :
    Except TLErr Value :=
  if cnt == 1 then
    match r with
    | some x => .ok x
    | none => .error unmodelledErr
  else if cnt == 0 then .error (.mk .valueError (unionFailMsg vn tn) [] excs)
  else .error (.mk .typeError (unionConflictMsg vn tn cnt) [] excs)

/-- The `for t in sorted_args` loop of `_unionload`: recognized typedload
failures are collected (`exceptions.append(e)`); in non-debug mode the loop
breaks at the first success.  A failure that is not a recognized typedload
failure propagates raw, exactly as a non-`TypedloadException` would escape
the Python `except` clause. -/
def unionLoop (debug : Bool) (loadFn : LoadFn) (value : Value) (vn tn : String) :
    List Ty → List TLErr → Nat → Option Value → Except TLErr Value
  | [], excs, cnt, r => unionDecide vn tn excs cnt r
  | t :: rest, excs, cnt, r =>
      match loadFn value t (some (.union t)) with
      | .ok r2 =>
          if debug then unionLoop debug loadFn value vn tn rest excs (cnt + 1) (some r2)
          else unionDecide vn tn excs (cnt + 1) (some r2)
      | .error e =>
          match e.kind with
          | .foreign => .error e
          | _ => unionLoop debug loadFn value vn tn rest (excs ++ [e]) cnt r

/-- `_unionload`: the basic-scalar fast path, then the sorted
first-success scan. -/
def _unionload (l : Loader) (loadFn : LoadFn) (value : Value) (type_ : Ty) :
    Except TLErr Value :=
  match type_ with
  | .tUnion args =>
      if typeMem value l.basictypes && typeMem value args then .ok value
      else
        unionLoop l.uniondebugconflict loadFn value (tnameOfValue value) (tname type_)
          (sortByBasic l.basictypes args) [] 0 none
  | _ => .error unmodelledErr

/-! ### The dispatch table and the engine (`Loader.handlers`, `Loader.index`,
`Loader.load`) -/

/-- Routine slot for the handler entries whose shapes the modelled universe
does not contain; unreachable through dispatch because their predicates are
constantly false here. -/
def unmodelledHandler : LoadFn → Value → Ty → Except TLErr Value :=
  fun _ _ _ => .error unmodelledErr

/-- The handler list of `Loader.__init__`, in its exact source order: pairs
of a shape predicate (a condition that may in general raise — hence
`Except String Bool`; the modelled predicates never do) and the paired
decoding routine. -/
def handlers (l : Loader) :
    List ((Ty → Except String Bool) × (LoadFn → Value → Ty → Except TLErr Value)) :=
  [ (fun t => .ok (is_nonetype t), fun _fn v t => _noneload l v t),
    (fun t => .ok (is_union t), fun fn v t => _unionload l fn v t),
    (fun t => .ok (l.basictypes.contains t), fun _fn v t => _basicload l v t),
    (fun t => .ok (is_enum t), unmodelledHandler),
    (fun t => .ok (is_tuple t), unmodelledHandler),
    (fun t => .ok (is_list t), fun fn v t => _listload l fn v t),
    (fun t => .ok (is_dict t), unmodelledHandler),
    (fun t => .ok (is_set t), unmodelledHandler),
    (fun t => .ok (is_frozenset t), unmodelledHandler),
    (fun t => .ok (is_namedtuple t), fun fn v t => _namedtupleload l fn v t),
    (fun t => .ok (is_dataclass t), fun fn v t => _dataclassload l fn v t),
    (fun t => .ok (is_forwardref t), unmodelledHandler),
    (fun t => .ok (is_literal t), fun _fn v t => _literalload l v t),
    (fun t => .ok (is_typeddict t), fun fn v t => _typeddictload l fn v t),
    (fun t => .ok (is_datetime t), unmodelledHandler),
    (fun t => .ok (is_strconstructed t), unmodelledHandler),
    (fun t => .ok (is_attrs t), fun fn v t => _attrload l fn v t),
    (fun t => .ok (is_any t), fun _fn v t => _anyload l v t),
    (fun t => .ok (is_newtype t), unmodelledHandler) ]

/-- The condition loop of `Loader.index`: evaluate each predicate in order;
a predicate exception propagates when `raiseconditionerrors` is set and is
treated as a non-match otherwise; the first true predicate gives the index;
no match models the final `raise ValueError` as `none`. -/
def indexFindAux (rce : Bool) (type_ : Ty) :
    List (Ty → Except String Bool) → Nat → Except String (Option Nat)
  | [], _ => .ok none
  | cond :: rest, i =>
      match cond type_ with
      | .error e =>
          if rce then .error e else indexFindAux rce type_ rest (i + 1)
      | .ok true => .ok (some i)
      | .ok false => indexFindAux rce type_ rest (i + 1)

/-- `Loader.index`: the dispatch-table lookup.  (The `_indexcache`
memoization of `Loader.load` is omitted: it is a pure cache of this
function.) -/
def Loader.index (l : Loader) (type_ : Ty) : Except String (Option Nat) :=
  indexFindAux l.raiseconditionerrors type_ ((handlers l).map Prod.fst) 0

/-- `Loader.load`.  Fuel bounds the recursion depth; at fuel 0 the distinct
non-typedload `unmodelledErr` is returned (never reached at sufficient
fuel).  The dispatch failure (`raise TypedloadTypeError('Cannot deal with
value of type ...')`) happens before the `try` block, so no trace entry is
prepended to it in this frame; a failure of the dispatched routine gets the
`(value, type_, annotation)` trace entry prepended before propagating. -/
def Loader.load (l : Loader) : Nat → Value → Ty → Option Ann → Except TLErr Value
  | 0, _, _, _ => .error unmodelledErr
  | Nat.succ n, value, type_, ann =>
      match Loader.index l type_ with
      | .error e => .error (.mk .foreign e [] [])
      | .ok none =>
          .error (.mk .typeError ("Cannot deal with value of type " ++ tname type_) [] [])
      | .ok (some i) =>
          match (((handlers l).map Prod.snd).getD i unmodelledHandler)
              (fun v2 t2 a2 => Loader.load l n v2 t2 a2) value type_ with
          | .ok r => .ok r
          | .error e => .error (prependTrace value type_ ann e)
termination_by structural fuel => fuel

/-! ### Auxiliary data used by the verification theorems -/

/-- The `Person` record of the trace-precision scenario. -/
def personTy : Ty := .tNamedTuple "Person" [("name", .tStr, none)]

/-- The `Students` record of the trace-precision scenario. -/
def studentsTy : Ty :=
  .tNamedTuple "Students" [("course", .tStr, none), ("students", .tList personTy, none)]

/-- The input of the trace-precision scenario. -/
def studentsInput : Value :=
  .vDict [("course", .vStr "x"),
    ("students", .vList [.vDict [("name", .vStr "A")], .vInt 3])]

/-- The failure produced by the trace-precision scenario. -/
def studentsErr : TLErr :=
  .mk .attributeError "\x27int\x27 object has no attribute \x27keys\x27"
    [⟨studentsInput, studentsTy, none⟩,
     ⟨.vList [.vDict [("name", .vStr "A")], .vInt 3], .tList personTy, some (.field "students")⟩,
     ⟨.vInt 3, personTy, some (.index 1)⟩] []

/-- The remapping of constructor failures done at the end of `_objloader`:
`except TypeError` becomes `TypedloadTypeError`, `except ValueError` becomes
`TypedloadValueError`. -/
def conRemap : ConErr → TLErr
  | .conTypeError m => .mk .typeError m [] []
  | .conValueError m => .mk .valueError m [] []

/-- A loader with the union debug/conflict check enabled. -/
def debugLoader : Loader := { uniondebugconflict := true }

/-- The outcome of one union alternative: a collected typedload failure or a
successful value. -/
def unionOutcome (f : LoadFn) (v : Value) (t : Ty) : TLErr ⊕ Value → Prop
  | .inl e => f v t (some (.union t)) = .error e ∧ e.kind ≠ ErrKind.foreign
  | .inr r => f v t (some (.union t)) = .ok r

/-- The collected failures among a list of alternative outcomes. -/
def sumLefts (outs : List (TLErr ⊕ Value)) : List TLErr :=
  outs.filterMap (fun o => o.getLeft?)

/-- The successful values among a list of alternative outcomes. -/
def sumRights (outs : List (TLErr ⊕ Value)) : List Value :=
  outs.filterMap (fun o => o.getRight?)

/-- The `r` variable of the union loop after a list of successes: each
success overwrites it. -/
def lastSome (r : Option Value) (xs : List Value) : Option Value :=
  xs.foldl (fun _ x => some x) r

/-! ### Lemmas and verification theorems -/

theorem indexFindAux_shift (rce : Bool) (t : Ty) :
    ∀ (conds : List (Ty → Except String Bool)) (i : Nat),
      indexFindAux rce t conds i
        = (indexFindAux rce t conds 0).map (Option.map (fun j => j + i)) := by
  intro conds
  induction conds with
  | nil => intro i; simp [indexFindAux, Except.map]
  | cons c rest ih =>
      intro i
      simp only [indexFindAux, Nat.zero_add]
      cases hc : c t with
      | error e =>
          cases rce with
          | true => simp [Except.map]
          | false =>
              simp only [Bool.false_eq_true, if_false]
              rw [ih (i + 1), ih 1]
              generalize indexFindAux false t rest 0 = res
              cases res with
              | error e2 => simp [Except.map]
              | ok o =>
                  cases o with
                  | none => simp [Except.map, Option.map]
                  | some j =>
                      simp [Except.map, Option.map]
                      omega
      | ok b =>
          cases b with
          | true => simp [Except.map, Option.map]
          | false =>
              rw [ih (i + 1), ih 1]
              generalize indexFindAux rce t rest 0 = res
              cases res with
              | error e2 => simp [Except.map]
              | ok o =>
                  cases o with
                  | none => simp [Except.map, Option.map]
                  | some j =>
                      simp [Except.map, Option.map]
                      omega

theorem indexFindAux_first (rce : Bool) (t : Ty) :
    ∀ (conds : List (Ty → Except String Bool)) (j : Nat),
      indexFindAux rce t conds 0 = .ok (some j) →
        ∃ c, conds.get? j = some c ∧ c t = .ok true
          ∧ ∀ k, k < j → ∃ ck, conds.get? k = some ck ∧ ck t ≠ .ok true := by
  intro conds
  induction conds with
  | nil => intro j h; simp [indexFindAux] at h
  | cons c rest ih =>
      intro j h
      simp only [indexFindAux, Nat.zero_add] at h
      cases hc : c t with
      | error e =>
          rw [hc] at h
          cases rce with
          | true => simp at h
          | false =>
              simp only [Bool.false_eq_true, if_false] at h
              rw [indexFindAux_shift false t rest 1] at h
              cases hrest : indexFindAux false t rest 0 with
              | error e2 => rw [hrest] at h; simp [Except.map] at h
              | ok o =>
                  rw [hrest] at h
                  cases o with
                  | none => simp [Except.map, Option.map] at h
                  | some j2 =>
                      have hj : j = j2 + 1 := by
                        simp [Except.map, Option.map] at h
                        omega
                      subst hj
                      obtain ⟨c2, hg, hct, hearlier⟩ := ih j2 hrest
                      refine ⟨c2, by simpa using hg, hct, ?_⟩
                      intro k hk
                      cases k with
                      | zero => exact ⟨c, by simp, by simp [hc]⟩
                      | succ k2 =>
                          obtain ⟨ck, hgk, hne⟩ := hearlier k2 (by omega)
                          exact ⟨ck, by simpa using hgk, hne⟩
      | ok b =>
          rw [hc] at h
          cases b with
          | true =>
              have hj : j = 0 := by simp at h; omega
              subst hj
              exact ⟨c, by simp, hc, by intro k hk; omega⟩
          | false =>
              rw [indexFindAux_shift rce t rest 1] at h
              cases hrest : indexFindAux rce t rest 0 with
              | error e2 => rw [hrest] at h; simp [Except.map] at h
              | ok o =>
                  rw [hrest] at h
                  cases o with
                  | none => simp [Except.map, Option.map] at h
                  | some j2 =>
                      have hj : j = j2 + 1 := by
                        simp [Except.map, Option.map] at h
                        omega
                      subst hj
                      obtain ⟨c2, hg, hct, hearlier⟩ := ih j2 hrest
                      refine ⟨c2, by simpa using hg, hct, ?_⟩
                      intro k hk
                      cases k with
                      | zero => exact ⟨c, by simp, by simp [hc]⟩
                      | succ k2 =>
                          obtain ⟨ck, hgk, hne⟩ := hearlier k2 (by omega)
                          exact ⟨ck, by simpa using hgk, hne⟩

/-- C10: for every input value, loading against the catch-all Any target
returns exactly the input value itself, unchanged: `_anyload` is the
identity routine, and dispatch (with Any not added to `basictypes`) invokes
it, performing no validation, coercion or recursion. -/
theorem C10_anyload_identity :
    (∀ (l : Loader) (v : Value) (t : Ty), _anyload l v t = .ok v)
    ∧ ∀ (l : Loader) (n : Nat) (v : Value) (ann : Option Ann),
        l.basictypes.contains Ty.tAny = false →
        Loader.load l (n + 1) v .tAny ann = .ok v := by
  constructor
  · intro l v t; rfl
  · intro l n v ann h
    simp [Loader.load, Loader.index, indexFindAux, handlers, is_nonetype, is_union,
      is_enum, is_tuple, is_list, is_dict, is_set, is_frozenset, is_namedtuple,
      is_dataclass, is_forwardref, is_literal, is_typeddict, is_datetime,
      is_strconstructed, is_attrs, is_any, is_newtype, h, _anyload]

/-- Witness for C10 at the default loader and a concrete list value. -/
theorem C10_anyload_identity_witness :
    defaultLoader.basictypes.contains Ty.tAny = false
    ∧ Loader.load defaultLoader 1 (.vList [.vInt 1, .vStr "x"]) .tAny none
        = .ok (.vList [.vInt 1, .vStr "x"]) :=
  ⟨rfl, C10_anyload_identity.2 defaultLoader 0 (.vList [.vInt 1, .vStr "x"]) none rfl⟩

/-- C7 counterexample: loading `True` against `Literal[1]` succeeds (and
returns `True`) although `True` is not verbatim one of the declared literal
values — Python `in` identifies `True` with `1`. -/
theorem C7_literal_counterexample :
    Loader.load defaultLoader 1 (.vBool true) (.tLiteral [.vInt 1]) none
      = .ok (.vBool true)
    ∧ ¬ (Value.vBool true ∈ [Value.vInt 1]) :=
  ⟨rfl, by simp⟩

/-- C7 (amended): for every literal-set target, load succeeds exactly when
the value compares equal to one of the declared literals under Python
equality (`pyEqB`, which identifies True/False with 1/0); the returned value
is always the input itself (no coercion); otherwise the value-rejection
failure is raised. -/
theorem C7_literal_pyEq :
    ∀ (l : Loader) (n : Nat) (v : Value) (lits : List Value) (ann : Option Ann),
      l.basictypes.contains (Ty.tLiteral lits) = false →
      ((lits.any (fun x => pyEqB v x) = true →
          Loader.load l (n + 1) v (.tLiteral lits) ann = .ok v)
        ∧ (lits.any (fun x => pyEqB v x) = false →
            Loader.load l (n + 1) v (.tLiteral lits) ann
              = .error (prependTrace v (.tLiteral lits) ann
                  (.mk .valueError ("Not one of the allowed values in "
                    ++ tname (.tLiteral lits)) [] [])))
        ∧ ∀ r, Loader.load l (n + 1) v (.tLiteral lits) ann = .ok r → r = v) := by
  intro l n v lits ann h
  have hd : Loader.load l (n + 1) v (.tLiteral lits) ann
      = match _literalload l v (.tLiteral lits) with
        | .ok r => .ok r
        | .error e => .error (prependTrace v (.tLiteral lits) ann e) := by
    simp [Loader.load, Loader.index, indexFindAux, handlers, is_nonetype, is_union,
      is_enum, is_tuple, is_list, is_dict, is_set, is_frozenset, is_namedtuple,
      is_dataclass, is_forwardref, is_literal, is_typeddict, is_datetime,
      is_strconstructed, is_attrs, is_any, is_newtype, h]
  cases ha : lits.any (fun x => pyEqB v x) with
  | true =>
      refine ⟨fun _ => ?_, fun hfalse => by simp at hfalse, ?_⟩
      · rw [hd]; simp [_literalload, ha]
      · intro r hr
        rw [hd] at hr
        simp [_literalload, ha] at hr
        exact hr.symm
  | false =>
      refine ⟨fun htrue => by simp at htrue, fun _ => ?_, ?_⟩
      · rw [hd]; simp [_literalload, ha]
      · intro r hr
        rw [hd] at hr
        simp [_literalload, ha] at hr

/-- Witness for C7 at a literal set containing the value itself. -/
theorem C7_literal_pyEq_witness :
    Loader.load defaultLoader 1 (.vInt 1) (.tLiteral [.vInt 1, .vStr "a"]) none
      = .ok (.vInt 1) :=
  (C7_literal_pyEq defaultLoader 0 (.vInt 1) [.vInt 1, .vStr "a"] none rfl).1 rfl

/-- C8: decoding `{"va.lue": 12}` against a record with field `value`
aliased from `va.lue` yields `value=12`; the alias map is as declared, and
`_mangle_names` produces a fresh rewritten mapping (the caller input, an
immutable value of the embedding, is untouched). -/
theorem C8_name_mangling :
    Loader.load defaultLoader 2 (.vDict [("va.lue", .vInt 12)])
        (.tAttrs "Mangle" [("value", .tInt, { metadata := [("name", "va.lue")] })]) none
      = .ok (.vRecord "Mangle" [("value", .vInt 12)])
    ∧ atNamesmap "name" [("value", .tInt, ({ metadata := [("name", "va.lue")] } : AInfo))]
        = [("va.lue", "value")]
    ∧ _mangle_names [("va.lue", "value")] (.vDict [("va.lue", .vInt 12)]) false
        = .ok (.vDict [("value", .vInt 12)]) :=
  ⟨rfl, rfl, rfl⟩

/-- C2: the decoding routine invoked by load is the one paired with the
first predicate in the fixed handler order that returns true (no earlier
predicate answers true); and when no predicate matches, load raises the
type-support failure (`TypedloadTypeError`, a kind distinct from the
validation kind) naming the unsupported type. -/
theorem C2_dispatch_first_match :
    (∀ (rce : Bool) (t : Ty) (conds : List (Ty → Except String Bool)) (j : Nat),
        indexFindAux rce t conds 0 = .ok (some j) →
          ∃ c, conds.get? j = some c ∧ c t = .ok true
            ∧ ∀ k, k < j → ∃ ck, conds.get? k = some ck ∧ ck t ≠ .ok true)
    ∧ (∀ (l : Loader) (n : Nat) (v : Value) (t : Ty) (ann : Option Ann) (i : Nat),
        Loader.index l t = .ok (some i) →
        Loader.load l (n + 1) v t ann
          = match (((handlers l).map Prod.snd).getD i unmodelledHandler)
                (fun v2 t2 a2 => Loader.load l n v2 t2 a2) v t with
            | .ok r => .ok r
            | .error e => .error (prependTrace v t ann e))
    ∧ (∀ (l : Loader) (n : Nat) (v : Value) (t : Ty) (ann : Option Ann),
        Loader.index l t = .ok none →
        Loader.load l (n + 1) v t ann
          = .error (.mk .typeError ("Cannot deal with value of type " ++ tname t) [] [])
        ∧ ErrKind.typeError ≠ ErrKind.valueError) := by
  refine ⟨indexFindAux_first, ?_, ?_⟩
  · intro l n v t ann i h
    simp [Loader.load, h]
  · intro l n v t ann h
    refine ⟨?_, by decide⟩
    simp [Loader.load, h]

/-- Witness for C2: the literal predicate is the first match at index 12
for a Literal target under the default loader, and an opaque type yields
the type-support failure. -/
theorem C2_dispatch_first_match_witness :
    (∃ c, ((handlers defaultLoader).map Prod.fst).get? 12 = some c
      ∧ c (.tLiteral []) = .ok true
      ∧ ∀ k, k < 12 →
          ∃ ck, ((handlers defaultLoader).map Prod.fst).get? k = some ck
            ∧ ck (.tLiteral []) ≠ .ok true)
    ∧ Loader.load defaultLoader 1 (.vInt 0) (.tOpaque "frozenset") none
        = .error (.mk .typeError "Cannot deal with value of type frozenset" [] []) :=
  ⟨C2_dispatch_first_match.1 defaultLoader.raiseconditionerrors (.tLiteral [])
      ((handlers defaultLoader).map Prod.fst) 12 rfl,
    (C2_dispatch_first_match.2.2 defaultLoader 0 (.vInt 0) (.tOpaque "frozenset") none rfl).1⟩

/-- C9: during dispatch-table lookup, if evaluating a shape predicate
raises, the exception propagates when `raiseconditionerrors` is set; when
cleared, the predicate counts as a non-match and evaluation continues with
the following predicates. -/
theorem C9_condition_errors :
    ∀ (rce : Bool) (t : Ty) (pre : List (Ty → Except String Bool))
      (c : Ty → Except String Bool) (post : List (Ty → Except String Bool)) (e : String),
      (∀ cj ∈ pre, cj t = .ok false) → c t = .error e →
      (rce = true → indexFindAux rce t (pre ++ c :: post) 0 = .error e)
      ∧ (rce = false →
          indexFindAux rce t (pre ++ c :: post) 0
            = (indexFindAux rce t post 0).map (Option.map (fun j => j + (pre.length + 1)))) := by
  intro rce t pre
  induction pre with
  | nil =>
      intro c post e _ hc
      constructor
      · intro hr
        subst hr
        simp [indexFindAux, hc]
      · intro hr
        subst hr
        simp only [List.nil_append, indexFindAux, Nat.zero_add, hc,
          Bool.false_eq_true, if_false, List.length_nil]
        exact indexFindAux_shift false t post 1
  | cons p ps ih =>
      intro c post e hpre hc
      have hp : p t = .ok false := hpre p (by simp)
      have hps : ∀ cj ∈ ps, cj t = .ok false := by
        intro cj hcj
        exact hpre cj (by simp [hcj])
      obtain ⟨ih1, ih2⟩ := ih c post e hps hc
      constructor
      · intro hr
        simp only [List.cons_append, indexFindAux, Nat.zero_add, hp, List.append_eq]
        rw [indexFindAux_shift rce t (ps ++ c :: post) 1, ih1 hr]
        simp [Except.map]
      · intro hr
        simp only [List.cons_append, indexFindAux, Nat.zero_add, hp, List.append_eq]
        rw [indexFindAux_shift rce t (ps ++ c :: post) 1, ih2 hr]
        generalize indexFindAux rce t post 0 = res
        cases res with
        | error e2 => simp [Except.map]
        | ok o =>
            cases o with
            | none => simp [Except.map, Option.map]
            | some j =>
                simp [Except.map, Option.map]
                omega

/-- Witness for C9 with a concrete erroring predicate in second
position. -/
theorem C9_condition_errors_witness :
    indexFindAux true .tInt
        [fun _ => .ok false, fun _ => .error "boom", fun _ => .ok true] 0 = .error "boom"
    ∧ indexFindAux false .tInt
        [fun _ => .ok false, fun _ => .error "boom", fun _ => .ok true] 0 = .ok (some 2) :=
  ⟨(C9_condition_errors true .tInt [fun _ => .ok false] (fun _ => .error "boom")
      [fun _ => .ok true] "boom" (by intro cj hcj; simp at hcj; subst hcj; rfl) rfl).1 rfl,
    ((C9_condition_errors false .tInt [fun _ => .ok false] (fun _ => .error "boom")
      [fun _ => .ok true] "boom" (by intro cj hcj; simp at hcj; subst hcj; rfl) rfl).2 rfl).trans rfl⟩

/-- C3 counterexample: the no-handler `TypedloadTypeError` raised by load
propagates out of the raising load call with an empty trace — no trace
entry is inserted in that frame. -/
theorem C3_trace_counterexample :
    Loader.load defaultLoader 1 (.vInt 3) (.tOpaque "set") none
      = .error (.mk .typeError "Cannot deal with value of type set" [] [])
    ∧ (TLErr.mk .typeError "Cannot deal with value of type set" [] []).trace = [] :=
  ⟨rfl, rfl⟩

/-- C3 (amended): whenever a failure raised by the dispatched handler
routine propagates out of a load call, exactly one trace entry
`(value, type, annotation)` is prepended, the existing entries being kept
in order; and the Students scenario fails with a trace whose last two
entries are the field annotation `students` then the index annotation 1. -/
theorem C3_trace_prepend :
    (∀ (l : Loader) (n : Nat) (v : Value) (t : Ty) (ann : Option Ann) (i : Nat) (e : TLErr),
        Loader.index l t = .ok (some i) →
        (((handlers l).map Prod.snd).getD i unmodelledHandler)
            (fun v2 t2 a2 => Loader.load l n v2 t2 a2) v t = .error e →
        Loader.load l (n + 1) v t ann = .error (prependTrace v t ann e)
          ∧ (prependTrace v t ann e).trace = ⟨v, t, ann⟩ :: e.trace)
    ∧ Loader.load defaultLoader 4 studentsInput studentsTy none = .error studentsErr
    ∧ studentsErr.trace.drop 1
        = [⟨.vList [.vDict [("name", .vStr "A")], .vInt 3], .tList personTy,
              some (.field "students")⟩,
           ⟨.vInt 3, personTy, some (.index 1)⟩] := by
  refine ⟨?_, rfl, rfl⟩
  intro l n v t ann i e hidx he
  constructor
  · simp [Loader.load, hidx, he]
  · cases e
    rfl

/-- Witness for C3 on a None target rejecting the integer 1. -/
theorem C3_trace_prepend_witness :
    Loader.load defaultLoader 1 (.vInt 1) .tNone none
      = .error (prependTrace (.vInt 1) .tNone none (.mk .valueError "Not None" [] [])) :=
  (C3_trace_prepend.1 defaultLoader 0 (.vInt 1) .tNone none 0
    (.mk .valueError "Not None" [] []) rfl rfl).1

/-! ### Dispatch step lemmas: what one unfolding of `Loader.load` does for
each shape of the modelled universe. -/

theorem load_union_step (l : Loader) (n : Nat) (v : Value) (args : List Ty)
    (ann : Option Ann) :
    Loader.load l (n + 1) v (.tUnion args) ann
      = match _unionload l (fun v2 t2 a2 => Loader.load l n v2 t2 a2) v (.tUnion args) with
        | .ok r => .ok r
        | .error e => .error (prependTrace v (.tUnion args) ann e) := by
  simp [Loader.load, Loader.index, indexFindAux, handlers, is_nonetype, is_union]

theorem load_namedtuple_step (l : Loader) (n : Nat) (v : Value) (name : String)
    (fs : List (String × Ty × Option Value)) (ann : Option Ann)
    (hb : l.basictypes.contains (.tNamedTuple name fs) = false) :
    Loader.load l (n + 1) v (.tNamedTuple name fs) ann
      = match _namedtupleload l (fun v2 t2 a2 => Loader.load l n v2 t2 a2) v
            (.tNamedTuple name fs) with
        | .ok r => .ok r
        | .error e => .error (prependTrace v (.tNamedTuple name fs) ann e) := by
  simp [Loader.load, Loader.index, indexFindAux, handlers, is_nonetype, is_union,
    is_enum, is_tuple, is_list, is_dict, is_set, is_frozenset, is_namedtuple,
    is_dataclass, is_forwardref, is_literal, is_typeddict, is_datetime,
    is_strconstructed, is_attrs, is_any, is_newtype, hb]

theorem load_dataclass_step (l : Loader) (n : Nat) (v : Value) (name : String)
    (fs : List (String × Ty × DInfo)) (ann : Option Ann)
    (hb : l.basictypes.contains (.tDataclass name fs) = false) :
    Loader.load l (n + 1) v (.tDataclass name fs) ann
      = match _dataclassload l (fun v2 t2 a2 => Loader.load l n v2 t2 a2) v
            (.tDataclass name fs) with
        | .ok r => .ok r
        | .error e => .error (prependTrace v (.tDataclass name fs) ann e) := by
  simp [Loader.load, Loader.index, indexFindAux, handlers, is_nonetype, is_union,
    is_enum, is_tuple, is_list, is_dict, is_set, is_frozenset, is_namedtuple,
    is_dataclass, is_forwardref, is_literal, is_typeddict, is_datetime,
    is_strconstructed, is_attrs, is_any, is_newtype, hb]

theorem load_typeddict_step (l : Loader) (n : Nat) (v : Value) (name : String)
    (fs : List (String × Ty)) (req : List String) (ann : Option Ann)
    (hb : l.basictypes.contains (.tTypedDict name fs req) = false) :
    Loader.load l (n + 1) v (.tTypedDict name fs req) ann
      = match _typeddictload l (fun v2 t2 a2 => Loader.load l n v2 t2 a2) v
            (.tTypedDict name fs req) with
        | .ok r => .ok r
        | .error e => .error (prependTrace v (.tTypedDict name fs req) ann e) := by
  simp [Loader.load, Loader.index, indexFindAux, handlers, is_nonetype, is_union,
    is_enum, is_tuple, is_list, is_dict, is_set, is_frozenset, is_namedtuple,
    is_dataclass, is_forwardref, is_literal, is_typeddict, is_datetime,
    is_strconstructed, is_attrs, is_any, is_newtype, hb]

theorem load_attrs_step (l : Loader) (n : Nat) (v : Value) (name : String)
    (fs : List (String × Ty × AInfo)) (ann : Option Ann)
    (hb : l.basictypes.contains (.tAttrs name fs) = false) :
    Loader.load l (n + 1) v (.tAttrs name fs) ann
      = match _attrload l (fun v2 t2 a2 => Loader.load l n v2 t2 a2) v (.tAttrs name fs) with
        | .ok r => .ok r
        | .error e => .error (prependTrace v (.tAttrs name fs) ann e) := by
  simp [Loader.load, Loader.index, indexFindAux, handlers, is_nonetype, is_union,
    is_enum, is_tuple, is_list, is_dict, is_set, is_frozenset, is_namedtuple,
    is_dataclass, is_forwardref, is_literal, is_typeddict, is_datetime,
    is_strconstructed, is_attrs, is_any, is_newtype, hb]

/-- Missing-required-fields failure of the shared record loader. -/
theorem objloader_missing (l : Loader) (fn : LoadFn) (fields necessary : List String)
    (hints : List (String × Ty)) (kvs : List (String × Value)) (t : Ty)
    (h : necessary.all (fun k => (kvs.map Prod.fst).contains k) = false) :
    _objloader l fn fields necessary hints (.vDict kvs) t
      = .error (.mk .valueError
          (missingFieldsMsg (necessary.filter (fun k => !((kvs.map Prod.fst).contains k)))
            (tname t)) [] []) := by
  simp only [_objloader]
  rw [h]
  simp

/-- C5: for every record-like target (named-tuple, data-class, attrs,
typed-dict) and mapping input, a required field missing from the (possibly
aliased) key set makes load raise a `TypedloadValueError` naming the missing
fields and the target type; `{}` against a record with one required field
fails naming it, while `{}` against an all-defaults record yields the
defaults. -/
theorem C5_required_fields :
    (∀ (l : Loader) (fn : LoadFn) (fields necessary : List String)
        (hints : List (String × Ty)) (kvs : List (String × Value)) (t : Ty),
        necessary.all (fun k => (kvs.map Prod.fst).contains k) = false →
        _objloader l fn fields necessary hints (.vDict kvs) t
          = .error (.mk .valueError
              (missingFieldsMsg (necessary.filter (fun k => !((kvs.map Prod.fst).contains k)))
                (tname t)) [] []))
    ∧ (∀ (l : Loader) (n : Nat) (kvs : List (String × Value)) (name : String)
        (fs : List (String × Ty × Option Value)) (ann : Option Ann),
        l.basictypes.contains (.tNamedTuple name fs) = false →
        (ntNecessary fs).all (fun k => (kvs.map Prod.fst).contains k) = false →
        Loader.load l (n + 1) (.vDict kvs) (.tNamedTuple name fs) ann
          = .error (prependTrace (.vDict kvs) (.tNamedTuple name fs) ann
              (.mk .valueError
                (missingFieldsMsg
                  ((ntNecessary fs).filter (fun k => !((kvs.map Prod.fst).contains k)))
                  (tname (.tNamedTuple name fs))) [] [])))
    ∧ (∀ (l : Loader) (n : Nat) (kvs : List (String × Value)) (name : String)
        (fs : List (String × Ty)) (req : List String) (ann : Option Ann),
        l.basictypes.contains (.tTypedDict name fs req) = false →
        req.all (fun k => (kvs.map Prod.fst).contains k) = false →
        Loader.load l (n + 1) (.vDict kvs) (.tTypedDict name fs req) ann
          = .error (prependTrace (.vDict kvs) (.tTypedDict name fs req) ann
              (.mk .valueError
                (missingFieldsMsg (req.filter (fun k => !((kvs.map Prod.fst).contains k)))
                  (tname (.tTypedDict name fs req))) [] [])))
    ∧ (∀ (l : Loader) (n : Nat) (kvs kvs2 : List (String × Value)) (name : String)
        (fs : List (String × Ty × DInfo)) (ann : Option Ann),
        l.basictypes.contains (.tDataclass name fs) = false →
        _mangle_names (dcTransforms l.mangle_key fs) (.vDict kvs) l.failonextra
          = .ok (.vDict kvs2) →
        (dcNecessary fs).all (fun k => (kvs2.map Prod.fst).contains k) = false →
        Loader.load l (n + 1) (.vDict kvs) (.tDataclass name fs) ann
          = .error (prependTrace (.vDict kvs) (.tDataclass name fs) ann
              (.mk .valueError
                (missingFieldsMsg
                  ((dcNecessary fs).filter (fun k => !((kvs2.map Prod.fst).contains k)))
                  (tname (.tDataclass name fs))) [] [])))
    ∧ (∀ (l : Loader) (n : Nat) (kvs kvs2 : List (String × Value)) (name : String)
        (fs : List (String × Ty × AInfo)) (ann : Option Ann),
        l.basictypes.contains (.tAttrs name fs) = false →
        _mangle_names (atNamesmap l.mangle_key fs) (.vDict kvs) l.failonextra
          = .ok (.vDict kvs2) →
        (atNecessary fs).all (fun k => (kvs2.map Prod.fst).contains k) = false →
        Loader.load l (n + 1) (.vDict kvs) (.tAttrs name fs) ann
          = .error (prependTrace (.vDict kvs) (.tAttrs name fs) ann
              (.mk .valueError
                (missingFieldsMsg
                  ((atNecessary fs).filter (fun k => !((kvs2.map Prod.fst).contains k)))
                  (tname (.tAttrs name fs))) [] [])))
    ∧ Loader.load defaultLoader 2 (.vDict []) (.tNamedTuple "A" [("x", .tStr, none)]) none
        = .error (.mk .valueError (missingFieldsMsg ["x"] "A")
            [⟨.vDict [], .tNamedTuple "A" [("x", .tStr, none)], none⟩] [])
    ∧ Loader.load defaultLoader 2 (.vDict [])
          (.tNamedTuple "B" [("x", .tInt, some (.vInt 5)), ("y", .tStr, some (.vStr "d"))]) none
        = .ok (.vRecord "B" [("x", .vInt 5), ("y", .vStr "d")]) := by
  refine ⟨objloader_missing, ?_, ?_, ?_, ?_, rfl, rfl⟩
  · intro l n kvs name fs ann hb h
    rw [load_namedtuple_step l n (.vDict kvs) name fs ann hb]
    simp only [_namedtupleload]
    rw [objloader_missing l _ (ntFieldNames fs) (ntNecessary fs) (ntHints fs) kvs
      (.tNamedTuple name fs) h]
  · intro l n kvs name fs req ann hb h
    rw [load_typeddict_step l n (.vDict kvs) name fs req ann hb]
    simp only [_typeddictload]
    rw [objloader_missing l _ (tdFieldNames fs) req fs kvs (.tTypedDict name fs req) h]
  · intro l n kvs kvs2 name fs ann hb hm h
    rw [load_dataclass_step l n (.vDict kvs) name fs ann hb]
    simp only [_dataclassload]
    rw [hm]
    simp [objloader_missing l (fun v2 t2 a2 => Loader.load l n v2 t2 a2) (dcFieldNames fs)
      (dcNecessary fs) (dcHints fs) kvs2 (.tDataclass name fs) h]
  · intro l n kvs kvs2 name fs ann hb hm h
    rw [load_attrs_step l n (.vDict kvs) name fs ann hb]
    simp only [_attrload]
    rw [hm]
    simp [objloader_missing l (fun v2 t2 a2 => Loader.load l n v2 t2 a2) (atFieldNames fs)
      (atNecessary fs) (atHints fs) kvs2 (.tAttrs name fs) h]

/-- Witness for C5 on a TypedDict with a missing required key. -/
theorem C5_required_fields_witness :
    Loader.load defaultLoader 1
        (.vDict [("b", .vInt 1)])
        (.tTypedDict "TD" [("a", .tInt), ("b", .tInt)] ["a", "b"]) none
      = .error (prependTrace (.vDict [("b", .vInt 1)])
          (.tTypedDict "TD" [("a", .tInt), ("b", .tInt)] ["a", "b"]) none
          (.mk .valueError (missingFieldsMsg ["a"] "TD") [] [])) :=
  C5_required_fields.2.2.1 defaultLoader 0 [("b", .vInt 1)] "TD"
    [("a", .tInt), ("b", .tInt)] ["a", "b"] none rfl rfl

/-- C6: a failure of the record constructor on the decoded field values is
remapped by `_objloader` to one of the recognized failure kinds
(`TypedloadTypeError` for an argument mismatch, `TypedloadValueError` for a
value rejection); no foreign exception escapes the construction step. -/
theorem C6_constructor_remap :
    ∀ (l : Loader) (fn : LoadFn) (fields necessary : List String)
      (hints : List (String × Ty)) (kvs : List (String × Value)) (t : Ty)
      (params : List (String × Value)) (ce : ConErr),
      necessary.all (fun k => (kvs.map Prod.fst).contains k) = true →
      objFields fn fields hints l.failonextra (kvs.map Prod.fst) (tname t) kvs = .ok params →
      pyConstruct t params = .error ce →
      _objloader l fn fields necessary hints (.vDict kvs) t = .error (conRemap ce)
        ∧ ((conRemap ce).kind = ErrKind.typeError ∨ (conRemap ce).kind = ErrKind.valueError) := by
  intro l fn fields necessary hints kvs t params ce hall hof hce
  constructor
  · simp only [_objloader]
    rw [hall]
    cases ce <;> simp [hof, hce, conRemap]
  · cases ce <;> simp [conRemap, TLErr.kind]

/-- Witness for C6: passing a non-init attrs field to the constructor is a
TypeError remapped to the typeError kind. -/
theorem C6_constructor_remap_witness :
    _objloader defaultLoader (fun v _ _ => .ok v) ["x"] [] [("x", .tInt)]
        (.vDict [("x", .vInt 1)])
        (.tAttrs "W" [("x", .tInt, { default := none, init := false, metadata := [] })])
      = .error (conRemap (.conTypeError "W.__init__() got an unexpected keyword argument")) :=
  (C6_constructor_remap defaultLoader (fun v _ _ => .ok v) ["x"] [] [("x", .tInt)]
    [("x", .vInt 1)]
    (.tAttrs "W" [("x", .tInt, { default := none, init := false, metadata := [] })])
    [("x", .vInt 1)]
    (.conTypeError "W.__init__() got an unexpected keyword argument") rfl rfl rfl).1

/-- A failing prefix of alternatives only extends the collected exception
list, for either debug mode. -/
theorem unionLoop_skip_failures (debug : Bool) (f : LoadFn) (v : Value) (vn tn : String) :
    ∀ (pre : List Ty) (errs : List TLErr) (ts : List Ty) (excs : List TLErr)
      (cnt : Nat) (r : Option Value),
      List.Forall₂ (fun t e => f v t (some (.union t)) = .error e ∧ e.kind ≠ ErrKind.foreign)
        pre errs →
      unionLoop debug f v vn tn (pre ++ ts) excs cnt r
        = unionLoop debug f v vn tn ts (excs ++ errs) cnt r := by
  intro pre errs ts excs cnt r hf
  induction hf generalizing excs with
  | nil => simp
  | cons hte hrest ih =>
      rename_i t e pre2 errs2
      obtain ⟨hf1, hf2⟩ := hte
      cases e with
      | mk k m tr ex =>
          have hk : k ≠ ErrKind.foreign := by simpa [TLErr.kind] using hf2
          simp only [List.cons_append, unionLoop]
          rw [hf1]
          cases k with
          | foreign => exact absurd rfl hk
          | typeError => simp [TLErr.kind, ih]
          | valueError => simp [TLErr.kind, ih]
          | attributeError => simp [TLErr.kind, ih]

/-- In non-debug mode, the loop returns the first success. -/
theorem unionLoop_first_success (f : LoadFn) (v : Value) (vn tn : String)
    (t : Ty) (rest : List Ty) (excs : List TLErr) (r : Value)
    (hok : f v t (some (.union t)) = .ok r) :
    unionLoop false f v vn tn (t :: rest) excs 0 none = .ok r := by
  simp only [unionLoop]
  rw [hok]
  simp [unionDecide]

/-- When every alternative fails, the loop decides on the collected
failures. -/
theorem unionLoop_all_fail (debug : Bool) (f : LoadFn) (v : Value) (vn tn : String)
    (ts : List Ty) (errs : List TLErr)
    (hf : List.Forall₂
      (fun t e => f v t (some (.union t)) = .error e ∧ e.kind ≠ ErrKind.foreign) ts errs) :
    unionLoop debug f v vn tn ts [] 0 none = unionDecide vn tn errs 0 none := by
  have h := unionLoop_skip_failures debug f v vn tn ts errs [] [] 0 none hf
  simpa [unionLoop] using h

/-- In debug mode the loop visits every alternative, counting successes,
keeping the last success and collecting every failure. -/
theorem unionLoop_debug_eval (f : LoadFn) (v : Value) (vn tn : String) :
    ∀ (ts : List Ty) (outs : List (TLErr ⊕ Value)) (excs : List TLErr)
      (cnt : Nat) (r : Option Value),
      List.Forall₂ (fun t o => unionOutcome f v t o) ts outs →
      unionLoop true f v vn tn ts excs cnt r
        = unionDecide vn tn (excs ++ sumLefts outs) (cnt + (sumRights outs).length)
            (lastSome r (sumRights outs)) := by
  intro ts outs excs cnt r hf
  induction hf generalizing excs cnt r with
  | nil => simp [unionLoop, sumLefts, sumRights, lastSome]
  | cons hto hrest ih =>
      rename_i t o ts2 outs2
      cases o with
      | inl e =>
          obtain ⟨hf1, hf2⟩ := hto
          cases e with
          | mk k m tr ex =>
              have hk : k ≠ ErrKind.foreign := by simpa [TLErr.kind] using hf2
              simp only [unionLoop]
              rw [hf1]
              cases k with
              | foreign => exact absurd rfl hk
              | typeError =>
                  simp [TLErr.kind, ih, sumLefts, sumRights, lastSome,
                    Sum.getLeft?, Sum.getRight?]
              | valueError =>
                  simp [TLErr.kind, ih, sumLefts, sumRights, lastSome,
                    Sum.getLeft?, Sum.getRight?]
              | attributeError =>
                  simp [TLErr.kind, ih, sumLefts, sumRights, lastSome,
                    Sum.getLeft?, Sum.getRight?]
      | inr r2 =>
          have hn : ∀ m : Nat, cnt + 1 + m = cnt + (m + 1) := by omega
          simp only [unionLoop]
          rw [hto]
          simp only [if_true]
          rw [ih excs (cnt + 1) (some r2)]
          simp [sumLefts, sumRights, lastSome, Sum.getLeft?, Sum.getRight?, hn]

/-- An element whose key is false is inserted at the front. -/
theorem insertByKey_false (key : Ty → Bool) (x : Ty) (h : key x = false) :
    ∀ l, insertByKey key x l = x :: l := by
  intro l
  cases l with
  | nil => rfl
  | cons y ys => simp [insertByKey, boolLe, h]

/-- An element whose key is true is inserted between the false-key part and
the true-key part. -/
theorem insertByKey_true (key : Ty → Bool) (x : Ty) (h : key x = true) :
    ∀ (A B : List Ty), (∀ a ∈ A, key a = false) → (∀ b ∈ B, key b = true) →
      insertByKey key x (A ++ B) = A ++ x :: B := by
  intro A
  induction A with
  | nil =>
      intro B _ hB
      cases B with
      | nil => rfl
      | cons b bs =>
          have hb : key b = true := hB b (by simp)
          simp [insertByKey, boolLe, h, hb]
  | cons a as ih =>
      intro B hA hB
      have ha : key a = false := hA a (by simp)
      have has : ∀ a2 ∈ as, key a2 = false := fun a2 h2 => hA a2 (by simp [h2])
      simp [insertByKey, boolLe, h, ha, ih B has hB]

/-- The stable insertion sort on a boolean key is exactly the stable
partition: false-key elements first, then true-key elements, each side in
the original order. -/
theorem insSortByKey_partition (key : Ty → Bool) :
    ∀ xs, insSortByKey key xs
      = xs.filter (fun t => !(key t)) ++ xs.filter (fun t => key t) := by
  intro xs
  induction xs with
  | nil => rfl
  | cons x xs ih =>
      simp only [insSortByKey, ih]
      cases hx : key x with
      | false =>
          rw [insertByKey_false key x hx]
          simp [List.filter_cons, hx]
      | true =>
          rw [insertByKey_true key x hx
            (xs.filter (fun t => !(key t))) (xs.filter (fun t => key t))
            (by intro a ha; simp at ha; simpa using ha.2)
            (by intro b hb; simp at hb; exact hb.2)]
          simp [List.filter_cons, hx]

/-- C1: union loading takes the fast path (value returned unchanged) when
the value's exact runtime scalar type is a configured basic type and one of
the union's alternatives; otherwise the alternatives are tried in the order
of the stable sort placing basic-scalar alternatives last (exactly the
stable partition), and in non-debug mode the first successful alternative's
result is returned — in particular, for alternatives `[A, B]` where the
value loads only under `A`, load returns the `A` result. -/
theorem C1_union_resolution :
    (∀ (l : Loader) (n : Nat) (v : Value) (args : List Ty) (ann : Option Ann),
        (typeMem v l.basictypes && typeMem v args) = true →
        Loader.load l (n + 1) v (.tUnion args) ann = .ok v)
    ∧ (∀ (basictypes args : List Ty),
        sortByBasic basictypes args
          = args.filter (fun t => !(basictypes.contains t))
            ++ args.filter (fun t => basictypes.contains t))
    ∧ (∀ (l : Loader) (n : Nat) (v : Value) (args : List Ty) (ann : Option Ann)
        (pre : List Ty) (t : Ty) (rest : List Ty) (errs : List TLErr) (r : Value),
        l.uniondebugconflict = false →
        (typeMem v l.basictypes && typeMem v args) = false →
        sortByBasic l.basictypes args = pre ++ t :: rest →
        List.Forall₂
          (fun tj ej => Loader.load l n v tj (some (.union tj)) = .error ej
            ∧ ej.kind ≠ ErrKind.foreign) pre errs →
        Loader.load l n v t (some (.union t)) = .ok r →
        Loader.load l (n + 1) v (.tUnion args) ann = .ok r)
    ∧ (∀ (l : Loader) (n : Nat) (v : Value) (A B : Ty) (ann : Option Ann)
        (rA : Value) (eB : TLErr),
        l.uniondebugconflict = false →
        (typeMem v l.basictypes && typeMem v [A, B]) = false →
        Loader.load l n v A (some (.union A)) = .ok rA →
        Loader.load l n v B (some (.union B)) = .error eB →
        eB.kind ≠ ErrKind.foreign →
        Loader.load l (n + 1) v (.tUnion [A, B]) ann = .ok rA) := by
  have hfirst : ∀ (l : Loader) (n : Nat) (v : Value) (args : List Ty) (ann : Option Ann)
      (pre : List Ty) (t : Ty) (rest : List Ty) (errs : List TLErr) (r : Value),
      l.uniondebugconflict = false →
      (typeMem v l.basictypes && typeMem v args) = false →
      sortByBasic l.basictypes args = pre ++ t :: rest →
      List.Forall₂
        (fun tj ej => Loader.load l n v tj (some (.union tj)) = .error ej
          ∧ ej.kind ≠ ErrKind.foreign) pre errs →
      Loader.load l n v t (some (.union t)) = .ok r →
      Loader.load l (n + 1) v (.tUnion args) ann = .ok r := by
    intro l n v args ann pre t rest errs r hdebug hfast hsort hpre hok
    rw [load_union_step]
    simp only [_unionload]
    rw [hfast]
    simp only [Bool.false_eq_true, if_false]
    rw [hsort, hdebug]
    rw [unionLoop_skip_failures false (fun v2 t2 a2 => Loader.load l n v2 t2 a2) v
      (tnameOfValue v) (tname (.tUnion args)) pre errs (t :: rest) [] 0 none hpre]
    rw [unionLoop_first_success (fun v2 t2 a2 => Loader.load l n v2 t2 a2) v
      (tnameOfValue v) (tname (.tUnion args)) t rest ([] ++ errs) r hok]
  refine ⟨?_, ?_, hfirst, ?_⟩
  · intro l n v args ann hfast
    rw [load_union_step]
    simp [_unionload, hfast]
  · intro basictypes args
    exact insSortByKey_partition (fun t => basictypes.contains t) args
  · intro l n v A B ann rA eB hdebug hfast hA hB hkB
    cases hkA : l.basictypes.contains A with
    | false =>
        have hsort : sortByBasic l.basictypes [A, B] = [] ++ A :: [B] := by
          cases hkB2 : l.basictypes.contains B with
          | false => simp [sortByBasic, insSortByKey, insertByKey, boolLe, hkA, hkB2]
          | true => simp [sortByBasic, insSortByKey, insertByKey, boolLe, hkA, hkB2]
        exact hfirst l n v [A, B] ann [] A [B] [] rA hdebug hfast hsort
          List.Forall₂.nil hA
    | true =>
        cases hkB2 : l.basictypes.contains B with
        | true =>
            have hsort : sortByBasic l.basictypes [A, B] = [] ++ A :: [B] := by
              simp [sortByBasic, insSortByKey, insertByKey, boolLe, hkA, hkB2]
            exact hfirst l n v [A, B] ann [] A [B] [] rA hdebug hfast hsort
              List.Forall₂.nil hA
        | false =>
            have hsort : sortByBasic l.basictypes [A, B] = [B] ++ A :: [] := by
              simp [sortByBasic, insSortByKey, insertByKey, boolLe, hkA, hkB2]
            exact hfirst l n v [A, B] ann [B] A [] [eB] rA hdebug hfast hsort
              (List.Forall₂.cons ⟨hB, hkB⟩ List.Forall₂.nil) hA

/-- Witness for C1: the fast path on an int against `Union[int, str]`, and
the `[A, B]` case on a dict loading only as the namedtuple alternative. -/
theorem C1_union_resolution_witness :
    Loader.load defaultLoader 1 (.vInt 7) (.tUnion [.tInt, .tStr]) none = .ok (.vInt 7)
    ∧ Loader.load defaultLoader 3 (.vDict [("name", .vStr "s")])
        (.tUnion [.tNamedTuple "P" [("name", .tStr, none)], .tInt]) none
      = .ok (.vRecord "P" [("name", .vStr "s")]) :=
  ⟨C1_union_resolution.1 defaultLoader 0 (.vInt 7) [.tInt, .tStr] none rfl,
    C1_union_resolution.2.2.2 defaultLoader 2 (.vDict [("name", .vStr "s")])
      (.tNamedTuple "P" [("name", .tStr, none)]) .tInt none
      (.vRecord "P" [("name", .vStr "s")])
      (.mk .typeError
        "int() argument must be a string, a bytes-like object or a real number, not \x27dict\x27"
        [⟨.vDict [("name", .vStr "s")], .tInt, some (.union .tInt)⟩] [])
      rfl rfl rfl rfl (by decide)⟩

/-- C4: when no union alternative loads, the resolver raises a
`TypedloadValueError` carrying every per-alternative failure as a nested
cause, none discarded; in debug mode, more than one success raises a
`TypedloadTypeError` reporting the success count with the nested causes;
and exactly one success returns that result. -/
theorem C4_union_outcomes :
    (∀ (l : Loader) (fn : LoadFn) (v : Value) (args : List Ty) (errs : List TLErr),
        (typeMem v l.basictypes && typeMem v args) = false →
        List.Forall₂
          (fun t e => fn v t (some (.union t)) = .error e ∧ e.kind ≠ ErrKind.foreign)
          (sortByBasic l.basictypes args) errs →
        _unionload l fn v (.tUnion args)
          = .error (.mk .valueError
              (unionFailMsg (tnameOfValue v) (tname (.tUnion args))) [] errs))
    ∧ (∀ (l : Loader) (fn : LoadFn) (v : Value) (args : List Ty)
        (outs : List (TLErr ⊕ Value)),
        (typeMem v l.basictypes && typeMem v args) = false →
        l.uniondebugconflict = true →
        List.Forall₂ (fun t o => unionOutcome fn v t o) (sortByBasic l.basictypes args) outs →
        2 ≤ (sumRights outs).length →
        _unionload l fn v (.tUnion args)
          = .error (.mk .typeError
              (unionConflictMsg (tnameOfValue v) (tname (.tUnion args))
                (sumRights outs).length)
              [] (sumLefts outs)))
    ∧ (∀ (l : Loader) (fn : LoadFn) (v : Value) (args : List Ty)
        (outs : List (TLErr ⊕ Value)) (r : Value),
        (typeMem v l.basictypes && typeMem v args) = false →
        l.uniondebugconflict = true →
        List.Forall₂ (fun t o => unionOutcome fn v t o) (sortByBasic l.basictypes args) outs →
        sumRights outs = [r] →
        _unionload l fn v (.tUnion args) = .ok r) := by
  refine ⟨?_, ?_, ?_⟩
  · intro l fn v args errs hfast hf
    simp only [_unionload]
    rw [hfast]
    simp only [Bool.false_eq_true, if_false]
    rw [unionLoop_all_fail l.uniondebugconflict fn v (tnameOfValue v)
      (tname (.tUnion args)) (sortByBasic l.basictypes args) errs hf]
    simp [unionDecide]
  · intro l fn v args outs hfast hdebug hf h2
    simp only [_unionload]
    rw [hfast]
    simp only [Bool.false_eq_true, if_false]
    rw [hdebug]
    rw [unionLoop_debug_eval fn v (tnameOfValue v) (tname (.tUnion args))
      (sortByBasic l.basictypes args) outs [] 0 none hf]
    have h1 : ((sumRights outs).length == 1) = false := by
      rw [beq_eq_false_iff_ne]
      omega
    have h0 : ((sumRights outs).length == 0) = false := by
      rw [beq_eq_false_iff_ne]
      omega
    simp [unionDecide, h1, h0]
  · intro l fn v args outs r hfast hdebug hf hr
    simp only [_unionload]
    rw [hfast]
    simp only [Bool.false_eq_true, if_false]
    rw [hdebug]
    rw [unionLoop_debug_eval fn v (tnameOfValue v) (tname (.tUnion args))
      (sortByBasic l.basictypes args) outs [] 0 none hf]
    simp [unionDecide, hr, lastSome]

/-- Witness for C4: a failing union, a two-success debug conflict and a
single-success debug union, each at concrete toy routines. -/
theorem C4_union_outcomes_witness :
    _unionload defaultLoader (fun _ _ _ => .error (.mk .valueError "nope" [] []))
        .vNone (.tUnion [.tList .tInt])
      = .error (.mk .valueError (unionFailMsg "NoneType" "Union") []
          [.mk .valueError "nope" [] []])
    ∧ _unionload debugLoader (fun _ _ _ => .ok .vNone)
        .vNone (.tUnion [.tList .tInt, .tList .tStr])
      = .error (.mk .typeError (unionConflictMsg "NoneType" "Union" 2) [] [])
    ∧ _unionload debugLoader
        (fun _ t _ => if t == Ty.tAny then .ok .vNone
          else .error (.mk .valueError "no" [] []))
        .vNone (.tUnion [.tAny, .tList .tInt])
      = .ok .vNone :=
  ⟨C4_union_outcomes.1 defaultLoader (fun _ _ _ => .error (.mk .valueError "nope" [] []))
      .vNone [.tList .tInt] [.mk .valueError "nope" [] []] rfl
      (List.Forall₂.cons ⟨rfl, by decide⟩ List.Forall₂.nil),
    C4_union_outcomes.2.1 debugLoader (fun _ _ _ => .ok .vNone) .vNone
      [.tList .tInt, .tList .tStr] [.inr .vNone, .inr .vNone] rfl rfl
      (List.Forall₂.cons rfl (List.Forall₂.cons rfl List.Forall₂.nil)) (by decide),
    C4_union_outcomes.2.2 debugLoader
      (fun _ t _ => if t == Ty.tAny then .ok .vNone
        else .error (.mk .valueError "no" [] []))
      .vNone [.tAny, .tList .tInt] [.inr .vNone, .inl (.mk .valueError "no" [] [])]
      .vNone rfl rfl
      (List.Forall₂.cons rfl (List.Forall₂.cons ⟨rfl, by decide⟩ List.Forall₂.nil)) rfl⟩
